import Mathlib

/-!
Verification of the battery-optimization control loop of this repository:
`src/core/reasoning.py` (decision engine), `src/core/actions.py` (action
executor and actuator backends) and `src/core/agent_controller.py`
(controller / emergency watchdog), translated as a shallow embedding.

Modelling conventions:
* Python floats are modelled as rationals (`ℚ`); Python ints as `ℤ`/`ℕ`.
* Python dicts are modelled as association lists with dict semantics
  (`lookupKey`, `setKey`, `delKey`): an update keeps the first-insertion
  position of a key, a fresh key is appended, `values()` is the list of
  second components in order.
* OS-level actuator primitives (setting brightness, CPU governor,
  bandwidth limits, process priorities) are external collaborators; their
  success or failure is abstracted as boolean outcomes carried by an
  `Env` record, and `time.time()` is modelled by a monotone counter
  (`clock`) threaded through the executor state.
-/

/-- Python `int()` truncation toward zero, on a rational. -/
def pyInt (q : ℚ) : ℤ := if 0 ≤ q then ⌊q⌋ else ⌈q⌉

/-- Dict lookup on an association list (first match wins). -/
def lookupKey {α : Type} : List (String × α) → String → Option α
  | [], _ => none
  | (k2, v) :: rest, k => if k2 = k then some v else lookupKey rest k

/-- Dict assignment `d[k] = v`: update in place if the key is present,
append otherwise (Python dicts preserve first-insertion order). -/
def setKey {α : Type} : List (String × α) → String → α → List (String × α)
  | [], k, v => [(k, v)]
  | (k2, v2) :: rest, k, v =>
      if k2 = k then (k, v) :: rest else (k2, v2) :: setKey rest k v

/-- Dict deletion `del d[k]`. -/
def delKey {α : Type} (l : List (String × α)) (k : String) : List (String × α) :=
  l.filter (fun p => p.1 ≠ k)

/-- Whether the dict contains a key (`k in d`). -/
def hasKey {α : Type} (l : List (String × α)) (k : String) : Bool :=
  (lookupKey l k).isSome

/-! ## Data model (`monitoring.py`, `reasoning.py`, `actions.py`) -/

/-- `monitoring.py` `SystemMetrics`: one timestamped metrics snapshot. -/
structure SystemMetrics where
  timestamp : ℚ
  battery_percent : ℚ
  battery_power_draw : ℚ
  cpu_percent : ℚ
  cpu_freq_current : ℚ
  memory_percent : ℚ
  gpu_percent : ℚ
  gpu_memory_percent : ℚ
  network_bytes_sent : ℤ
  network_bytes_recv : ℤ
  disk_io_read : ℤ
  disk_io_write : ℤ
  screen_brightness : ℚ
  active_processes : ℕ
  target_app_cpu : ℚ
  target_app_memory : ℚ
deriving DecidableEq

/-- `reasoning.py` `OptimizationAction`: a proposed mitigation. -/
structure OptimizationAction where
  action_type : String
  intensity : ℚ
  target_component : String
  estimated_savings : ℚ
  performance_impact : ℚ
  confidence : ℚ
deriving DecidableEq

/-- `reasoning.py` `ContextState`: categorical summary of a snapshot.
The source uses plain strings for each category; we keep them. -/
structure ContextState where
  battery_level : String
  performance_demand : String
  user_activity : String
  power_source : String
  time_of_day : String
  app_priority : String
deriving DecidableEq

/-! ## Context derivation (`reasoning.py` `BatteryOptimizationAgent.analyze_context`)

The source reads the wall-clock hour via `time.localtime().tm_hour`; the
embedding takes it as the explicit argument `current_hour`. -/

/-- `analyze_context` (reasoning.py lines 218-278). -/
def analyze_context (metrics : SystemMetrics) (current_hour : ℕ) : ContextState :=
  let battery_level :=
    if metrics.battery_percent ≤ 15 then "critical"
    else if metrics.battery_percent ≤ 30 then "low"
    else if metrics.battery_percent ≤ 60 then "medium"
    else "high"
  let total_usage := metrics.cpu_percent + metrics.gpu_percent
  let performance_demand :=
    if total_usage > 80 then "heavy"
    else if total_usage > 50 then "moderate"
    else if total_usage > 20 then "light"
    else "idle"
  let user_activity :=
    if 23 ≤ current_hour ∨ current_hour ≤ 6 then "sleeping"
    else if metrics.cpu_percent < 10 ∧ metrics.target_app_cpu < 5 then "away"
    else "active"
  let power_source :=
    if metrics.battery_power_draw < 5 then "plugged" else "battery"
  let time_of_day :=
    if 6 ≤ current_hour ∧ current_hour < 12 then "morning"
    else if 12 ≤ current_hour ∧ current_hour < 18 then "afternoon"
    else if 18 ≤ current_hour ∧ current_hour < 22 then "evening"
    else "night"
  let app_priority :=
    if metrics.target_app_cpu > 20 then "critical"
    else if metrics.target_app_cpu > 5 then "foreground"
    else "background"
  { battery_level := battery_level
    performance_demand := performance_demand
    user_activity := user_activity
    power_source := power_source
    time_of_day := time_of_day
    app_priority := app_priority }

/-! ## Rule tier (`reasoning.py` `BatteryRulesEngine`) -/

/-- `BatteryRulesEngine._critical_battery_rules` (reasoning.py 544-570). -/
def critical_battery_rules (metrics : SystemMetrics) : List OptimizationAction :=
  (if metrics.screen_brightness > 20 then
    [⟨"brightness_adjust", 0.8, "display", 20, 0.3, 0.9⟩] else [])
  ++ (if metrics.cpu_percent > 30 then
    [⟨"cpu_throttle", 0.7, "system", 25, 0.6, 0.85⟩] else [])

/-- `BatteryRulesEngine._low_battery_rules` (reasoning.py 572-598). -/
def low_battery_rules (metrics : SystemMetrics) : List OptimizationAction :=
  (if metrics.screen_brightness > 50 then
    [⟨"brightness_adjust", 0.4, "display", 10, 0.15, 0.8⟩] else [])
  ++ (if metrics.cpu_percent > 60 then
    [⟨"cpu_throttle", 0.3, "system", 12, 0.25, 0.75⟩] else [])

/-- `BatteryRulesEngine._performance_rules` (reasoning.py 600-615). -/
def performance_rules (metrics : SystemMetrics) : List OptimizationAction :=
  if metrics.target_app_cpu < 50 then
    [⟨"background_limit", 0.5, "system", 8, 0.1, 0.7⟩] else []

/-- `BatteryRulesEngine._away_mode_rules` (reasoning.py 617-642). -/
def away_mode_rules (metrics : SystemMetrics) : List OptimizationAction :=
  [⟨"brightness_adjust", 0.9, "display", 30, 0.1, 0.95⟩]
  ++ (if metrics.network_bytes_sent + metrics.network_bytes_recv > 1024 * 1024 then
    [⟨"network_limit", 0.6, "network", 15, 0.2, 0.8⟩] else [])

/-- `BatteryRulesEngine.get_rule_based_actions` (reasoning.py 521-542). -/
def get_rule_based_actions (metrics : SystemMetrics) (context : ContextState) :
    List OptimizationAction :=
  (if context.battery_level = "critical" then critical_battery_rules metrics
   else if context.battery_level = "low" then low_battery_rules metrics
   else [])
  ++ (if context.performance_demand = "heavy" ∧
        (context.battery_level = "low" ∨ context.battery_level = "critical")
      then performance_rules metrics else [])
  ++ (if context.user_activity = "away" then away_mode_rules metrics else [])

/-! ## Classifier tier (`reasoning.py` `BatteryOptimizationAgent`) -/

/-- `_prediction_to_actions` (reasoning.py 325-388): fixed action
templates per predicted class. -/
def prediction_to_actions (prediction : ℕ) (confidence : ℚ)
    (metrics : SystemMetrics) (context : ContextState) : List OptimizationAction :=
  if prediction = 0 then []
  else if prediction = 1 then
    if metrics.screen_brightness > 60 then
      [⟨"brightness_adjust", 0.3, "display", 5, 0.1, confidence⟩] else []
  else if prediction = 2 then
    (if metrics.cpu_percent > 50 then
      [⟨"cpu_throttle", 0.5, "system", 10, 0.3, confidence⟩] else [])
    ++ (if metrics.screen_brightness > 40 then
      [⟨"brightness_adjust", 0.5, "display", 8, 0.2, confidence⟩] else [])
  else if prediction = 3 then
    [⟨"cpu_throttle", 0.8, "system", 20, 0.6, confidence⟩,
     ⟨"brightness_adjust", 0.7, "display", 15, 0.4, confidence⟩]
    ++ (if context.app_priority ≠ "critical" then
      [⟨"app_throttle", 0.6, "target_app", 12, 0.5, confidence⟩] else [])
  else []

/-- `_synthetic_decision_logic` (reasoning.py 136-154): the labeling
function the classifier's synthetic training data is generated from
(`plugged` is passed as 0/1 in the source; we use `Bool`). -/
def synthetic_decision_logic (battery cpu memory : ℚ) (plugged : Bool) : ℕ :=
  if plugged then 0
  else if battery < 15 then 3
  else if battery < 30 then (if cpu > 70 ∨ memory > 80 then 2 else 1)
  else if battery < 60 then (if cpu > 90 then 1 else 0)
  else 0

/-- Modelled from the spec: the classifier tier of `decide()` is a learned
four-class scorer (`_ml_decision`, a RandomForest trained on the synthetic
data of `_generate_synthetic_training_data`); the trained model itself is
not part of the source tree, so its class output is modelled by
`synthetic_decision_logic`, the exact function its training labels are
generated from, with the class confidence left as the free argument
`confidence`. The plugged-in estimate mirrors `_extract_features`
(reasoning.py 190-202): `battery_power_draw < 5.0`. -/
def ml_decision_modelled (metrics : SystemMetrics) (context : ContextState)
    (confidence : ℚ) : List OptimizationAction :=
  let plugged := decide (metrics.battery_power_draw < 5)
  let prediction := synthetic_decision_logic metrics.battery_percent
    metrics.cpu_percent metrics.memory_percent plugged
  prediction_to_actions prediction confidence metrics context

/-! ## Merge of the two tiers (`_combine_actions`, reasoning.py 390-411) -/

/-- The merge key: `f"{action.action_type}_{action.target_component}"`. -/
def keyOf (action : OptimizationAction) : String :=
  action.action_type ++ "_" ++ action.target_component

/-- One step of the rule-action pass of `_combine_actions`: an unclaimed
key is appended as-is; a claimed key is replaced only by a strictly
more conservative (lower-intensity) rule action. -/
def insert_rule_action (combined : List (String × OptimizationAction))
    (action : OptimizationAction) : List (String × OptimizationAction) :=
  match lookupKey combined (keyOf action) with
  | none => combined ++ [(keyOf action, action)]
  | some existing =>
      if action.intensity < existing.intensity then
        setKey combined (keyOf action) action
      else combined

/-- `_combine_actions` (reasoning.py 390-411): ML actions are keyed first
(dict assignment), then rule actions are folded in; the result is the
dict's values in insertion order. -/
def combine_actions (ml_actions rule_actions : List OptimizationAction) :
    List OptimizationAction :=
  let combined := ml_actions.foldl (fun l a => setKey l (keyOf a) a) []
  ((rule_actions.foldl insert_rule_action combined).map (fun p => p.2))

/-- `decide_optimization` (reasoning.py 280-301), with the classifier tier
supplied by `ml_decision_modelled` and the wall-clock hour explicit. -/
def decide_optimization_modelled (metrics : SystemMetrics) (current_hour : ℕ)
    (confidence : ℚ) : List OptimizationAction :=
  let context := analyze_context metrics current_hour
  combine_actions (ml_decision_modelled metrics context confidence)
    (get_rule_based_actions metrics context)

/-! ## Mode filter (`agent_controller.py` `_filter_actions_by_mode`, 321-344) -/

/-- `_filter_actions_by_mode`: the source loops over the actions and
`continue`s past any action that exceeds the mode's intensity cap, falls
below the mode's confidence floor, or exceeds the global impact cap. -/
def filter_actions_by_mode : List OptimizationAction → ℚ → ℚ → ℚ →
    List OptimizationAction
  | [], _, _, _ => []
  | action :: rest, max_intensity, min_confidence, max_performance_impact =>
      if action.intensity > max_intensity then
        filter_actions_by_mode rest max_intensity min_confidence max_performance_impact
      else if action.confidence < min_confidence then
        filter_actions_by_mode rest max_intensity min_confidence max_performance_impact
      else if action.performance_impact > max_performance_impact then
        filter_actions_by_mode rest max_intensity min_confidence max_performance_impact
      else
        action :: filter_actions_by_mode rest max_intensity min_confidence max_performance_impact

/-! ## Action layer (`actions.py`) -/

/-- A Python value as stored in `ActionResult.previous_value` /
`new_value` (typed `Any` in the source: ints, floats or strings occur). -/
inductive Val where
  | int (n : ℤ)
  | rat (q : ℚ)
  | str (s : String)
deriving DecidableEq

/-- `actions.py` `ActionResult`. -/
structure ActionResult where
  action_id : String
  success : Bool
  error_message : Option String := none
  previous_value : Option Val := none
  new_value : Option Val := none
  estimated_savings : ℚ := 0
  actual_impact : ℚ := 0
deriving DecidableEq

/-- `DisplayOptimizer` state: current brightness, the per-action
previous-state dict (every stored entry has `type='brightness'`, so only
the stored brightness value is kept), and the `enabled` flag inherited
from `BaseOptimizer`. -/
structure DisplayState where
  current_brightness : ℤ
  previous_states : List (String × ℤ)
  enabled : Bool
deriving DecidableEq

/-- A `CPUOptimizer.previous_states` entry (always `type='frequency'`). -/
structure CpuPrev where
  governor : String
  max_freq_percent : ℚ
deriving DecidableEq

/-- `CPUOptimizer` state. -/
structure CpuState where
  original_governor : String
  previous_states : List (String × CpuPrev)
  enabled : Bool
deriving DecidableEq

/-- A `NetworkOptimizer.previous_states` entry (always
`type='bandwidth_limit'`). -/
structure NetPrev where
  interface : String
  had_limit : Bool
deriving DecidableEq

/-- `NetworkOptimizer` state. -/
structure NetworkState where
  active_limits : List (String × ℚ)
  previous_states : List (String × NetPrev)
  enabled : Bool
deriving DecidableEq

/-- The two kinds of `ApplicationOptimizer.previous_states` entries:
`'app_throttle'` (registered-callback path) and `'process_priority'`
(generic priority-adjustment path). -/
inductive AppPrevKind where
  | app_throttle
  | process_priority
deriving DecidableEq

/-- `ApplicationOptimizer` state. -/
structure AppState where
  previous_states : List (String × AppPrevKind)
  enabled : Bool
deriving DecidableEq

/-- Outcomes of the external platform primitives (PowerShell/xrandr/sysfs
writes, `tc`, `psutil`), which the spec treats as external collaborators:
each boolean is the success of the corresponding OS-facing call, and the
callback fields describe a registered application optimizer. -/
structure Env where
  displayOk : Bool
  cpuOk : Bool
  networkOk : Bool
  appOk : Bool
  hasCallback : Bool
  cbRaises : Bool
  cbResult : ActionResult
  procsFound : Bool
  procCount : ℕ
  iface : String
deriving DecidableEq

/-- `DisplayOptimizer._set_brightness` (actions.py 135-151): clamps to
[10,100] and attempts the platform call; on failure the cached
brightness is unchanged. -/
def set_brightness (ok : Bool) (st : DisplayState) (brightness : ℤ) :
    DisplayState × Bool :=
  let clamped := max 10 (min 100 brightness)
  if ok then ({ st with current_brightness := clamped }, true) else (st, false)

/-- `DisplayOptimizer.apply_optimization` (actions.py 210-243). The
source builds the action id from `time.time()`; the embedding uses the
executor clock. -/
def display_apply_optimization (ok : Bool) (clock : ℕ) (st : DisplayState)
    (action : OptimizationAction) : DisplayState × ActionResult :=
  let action_id := "display_" ++ action.action_type ++ "_" ++ toString clock
  if action.action_type = "brightness_adjust" then
    let previous_brightness := st.current_brightness
    let reduction := pyInt (action.intensity * 50)
    let new_brightness := max 10 (previous_brightness - reduction)
    let st1 := { st with
      previous_states := setKey st.previous_states action_id previous_brightness }
    let attempt := set_brightness ok st1 new_brightness
    (attempt.1,
     { action_id := action_id
       success := attempt.2
       previous_value := some (Val.int previous_brightness)
       new_value := some (Val.int (if attempt.2 then new_brightness else previous_brightness))
       estimated_savings := action.estimated_savings
       error_message := if attempt.2 then none else some "Failed to set brightness" })
  else
    (st, { action_id := action_id, success := false
           error_message := some ("Unknown display action: " ++ action.action_type) })

/-- `DisplayOptimizer.revert_optimization` (actions.py 245-271). Note the
source deletes the `previous_states` entry whether or not the restoring
`_set_brightness` call succeeded. -/
def display_revert_optimization (ok : Bool) (st : DisplayState)
    (action_id : String) : DisplayState × ActionResult :=
  match lookupKey st.previous_states action_id with
  | none =>
      (st, { action_id := action_id, success := false
             error_message := some "Action not found in history" })
  | some value =>
      let attempt := set_brightness ok st value
      let st2 := { attempt.1 with
        previous_states := delKey attempt.1.previous_states action_id }
      (st2,
       { action_id := action_id
         success := attempt.2
         new_value := some (Val.int (if attempt.2 then value else st.current_brightness))
         error_message := if attempt.2 then none else some "Failed to revert brightness" })

/-- `CPUOptimizer.apply_optimization` (actions.py 403-449); the chain of
governor/power-plan/frequency calls is abstracted to the single outcome
`ok`. -/
def cpu_apply_optimization (ok : Bool) (clock : ℕ) (st : CpuState)
    (action : OptimizationAction) : CpuState × ActionResult :=
  let action_id := "cpu_" ++ action.action_type ++ "_" ++ toString clock
  if action.action_type = "cpu_throttle" then
    let max_freq_percent := 100 - action.intensity * 50
    let st1 := { st with
      previous_states := setKey st.previous_states action_id ⟨st.original_governor, 100⟩ }
    (st1,
     { action_id := action_id
       success := ok
       previous_value := some (Val.int 100)
       new_value := some (if ok then Val.rat max_freq_percent else Val.int 100)
       estimated_savings := action.estimated_savings
       error_message := if ok then none else some "Failed to throttle CPU" })
  else
    (st, { action_id := action_id, success := false
           error_message := some ("Unknown CPU action: " ++ action.action_type) })

/-- `CPUOptimizer.revert_optimization` (actions.py 451-482): the stored
entry is deleted only on success. -/
def cpu_revert_optimization (ok : Bool) (st : CpuState) (action_id : String) :
    CpuState × ActionResult :=
  match lookupKey st.previous_states action_id with
  | none =>
      (st, { action_id := action_id, success := false
             error_message := some "Action not found in history" })
  | some _ =>
      let st2 := if ok then
        { st with previous_states := delKey st.previous_states action_id } else st
      (st2, { action_id := action_id, success := ok
              error_message := if ok then none else some "Failed to revert CPU settings" })

/-- `NetworkOptimizer.apply_optimization` (actions.py 566-603); the
primary interface and the `tc` outcome come from the environment. In the
source the `previous_value` field is computed after `active_limits` has
already been updated, which is why it reads the (possibly new) limit. -/
def network_apply_optimization (ok : Bool) (iface : String) (clock : ℕ)
    (st : NetworkState) (action : OptimizationAction) : NetworkState × ActionResult :=
  let action_id := "network_" ++ action.action_type ++ "_" ++ toString clock
  if action.action_type = "network_limit" then
    let limit_mbps := 100 * (1 - action.intensity)
    let st1 := { st with
      previous_states := setKey st.previous_states action_id ⟨iface, hasKey st.active_limits iface⟩ }
    let st2 := if ok then
      { st1 with active_limits := setKey st1.active_limits iface limit_mbps } else st1
    (st2,
     { action_id := action_id
       success := ok
       previous_value := some (match lookupKey st2.active_limits iface with
         | none => Val.str "unlimited"
         | some v => Val.rat v)
       new_value := some (if ok then Val.rat limit_mbps else Val.str "unchanged")
       estimated_savings := action.estimated_savings
       error_message := if ok then none else some "Failed to limit network bandwidth" })
  else
    (st, { action_id := action_id, success := false
           error_message := some ("Unknown network action: " ++ action.action_type) })

/-- `NetworkOptimizer.revert_optimization` (actions.py 605-633): when the
interface already had a limit before the action, `success` is never set
and the stored entry survives; otherwise the limit is removed and the
entry deleted on success. -/
def network_revert_optimization (ok : Bool) (st : NetworkState)
    (action_id : String) : NetworkState × ActionResult :=
  match lookupKey st.previous_states action_id with
  | none =>
      (st, { action_id := action_id, success := false
             error_message := some "Action not found in history" })
  | some prev =>
      let success := if prev.had_limit then false else ok
      let st1 := if success ∧ hasKey st.active_limits prev.interface then
        { st with active_limits := delKey st.active_limits prev.interface } else st
      let st2 := if success then
        { st1 with previous_states := delKey st1.previous_states action_id } else st1
      (st2, { action_id := action_id, success := success
              error_message := if success then none
                else some "Failed to revert network settings" })

/-- `ApplicationOptimizer.apply_optimization` (actions.py 656-752): the
registered-callback path stores an `'app_throttle'` entry; the generic
`psutil` path stores a `'process_priority'` entry when matching
processes were adjusted. -/
def app_apply_optimization (env : Env) (clock : ℕ) (st : AppState)
    (action : OptimizationAction) : AppState × ActionResult :=
  let action_id := "app_" ++ action.action_type ++ "_" ++ toString clock
  if action.action_type = "app_throttle" then
    if env.hasCallback then
      if env.cbRaises then
        (st, { action_id := action_id, success := false
               error_message := some "Application optimizer error" })
      else
        let st1 := { st with
          previous_states := setKey st.previous_states action_id AppPrevKind.app_throttle }
        (st1,
         { action_id := action_id
           success := env.cbResult.success
           previous_value := env.cbResult.previous_value
           new_value := env.cbResult.new_value
           estimated_savings := action.estimated_savings
           error_message := env.cbResult.error_message })
    else
      if env.procsFound then
        let st1 := { st with
          previous_states := setKey st.previous_states action_id AppPrevKind.process_priority }
        (st1,
         { action_id := action_id
           success := true
           previous_value := some (Val.str (toString env.procCount ++ " processes"))
           new_value := some (Val.str ("Priority reduced for " ++ toString env.procCount ++ " processes"))
           estimated_savings := 5 * env.procCount })
      else
        (st, { action_id := action_id, success := false
               error_message := some ("No processes found for application: "
                 ++ action.target_component) })
  else
    (st, { action_id := action_id, success := false
           error_message := some ("Unknown application action: " ++ action.action_type) })

/-- `ApplicationOptimizer.revert_optimization` (actions.py 754-796): a
`'process_priority'` entry is restored (and deleted) unless `psutil`
raises; an `'app_throttle'` entry falls through to the
"Unknown action type" failure and is never deleted. -/
def app_revert_optimization (ok : Bool) (st : AppState) (action_id : String) :
    AppState × ActionResult :=
  match lookupKey st.previous_states action_id with
  | none =>
      (st, { action_id := action_id, success := false
             error_message := some "Action not found in history" })
  | some AppPrevKind.process_priority =>
      if ok then
        ({ st with previous_states := delKey st.previous_states action_id },
         { action_id := action_id, success := true
           new_value := some (Val.str "Reverted process priorities") })
      else
        (st, { action_id := action_id, success := false
               error_message := some "Failed to revert process priorities" })
  | some AppPrevKind.app_throttle =>
      (st, { action_id := action_id, success := false
             error_message := some "Unknown action type for reversion" })

/-! ## Executor (`actions.py` `OptimizationActuator`) -/

/-- An entry of `OptimizationActuator.active_actions`:
`{'action': ..., 'result': ..., 'timestamp': ...}`. -/
structure ActiveRecord where
  action : OptimizationAction
  result : ActionResult
  timestamp : ℕ
deriving DecidableEq

/-- The whole actuator state: the four optimizer backends, the
active-action map, the result history, and the clock standing in for
`time.time()`. -/
structure ExecState where
  display : DisplayState
  cpu : CpuState
  network : NetworkState
  application : AppState
  active_actions : List (String × ActiveRecord)
  action_history : List ActionResult
  clock : ℕ
deriving DecidableEq

/-- The static routing table `optimizer_map` (actions.py 868-874 and
916-922): action kind to backend name. -/
def optimizer_route (action_type : String) : Option String :=
  if action_type = "brightness_adjust" then some "display"
  else if action_type = "cpu_throttle" then some "cpu"
  else if action_type = "network_limit" then some "network"
  else if action_type = "app_throttle" then some "application"
  else if action_type = "background_limit" then some "application"
  else none

/-- `OptimizationActuator._apply_single_action` (actions.py 865-900):
route the action kind, reject unknown kinds and disabled optimizers,
otherwise delegate to the backend's `apply_optimization`. The result is
`Except`-valued so that a Python-level exception escaping the backend
(handled by the caller's `try`) is representable; this concrete
embedding itself never throws. -/
def apply_single_action (env : Env) (s : ExecState) (action : OptimizationAction) :
    Except String (ExecState × ActionResult) :=
  match optimizer_route action.action_type with
  | none =>
      Except.ok ({ s with clock := s.clock + 1 },
        { action_id := "unknown_" ++ toString s.clock, success := false
          error_message := some ("Unknown action type: " ++ action.action_type) })
  | some name =>
      if name = "display" then
        if s.display.enabled then
          let q := display_apply_optimization env.displayOk s.clock s.display action
          Except.ok ({ s with display := q.1, clock := s.clock + 1 }, q.2)
        else
          Except.ok ({ s with clock := s.clock + 1 },
            { action_id := "disabled_" ++ toString s.clock, success := false
              error_message := some "Optimizer disabled: display" })
      else if name = "cpu" then
        if s.cpu.enabled then
          let q := cpu_apply_optimization env.cpuOk s.clock s.cpu action
          Except.ok ({ s with cpu := q.1, clock := s.clock + 1 }, q.2)
        else
          Except.ok ({ s with clock := s.clock + 1 },
            { action_id := "disabled_" ++ toString s.clock, success := false
              error_message := some "Optimizer disabled: cpu" })
      else if name = "network" then
        if s.network.enabled then
          let q := network_apply_optimization env.networkOk env.iface s.clock s.network action
          Except.ok ({ s with network := q.1, clock := s.clock + 1 }, q.2)
        else
          Except.ok ({ s with clock := s.clock + 1 },
            { action_id := "disabled_" ++ toString s.clock, success := false
              error_message := some "Optimizer disabled: network" })
      else
        if s.application.enabled then
          let q := app_apply_optimization env s.clock s.application action
          Except.ok ({ s with application := q.1, clock := s.clock + 1 }, q.2)
        else
          Except.ok ({ s with clock := s.clock + 1 },
            { action_id := "disabled_" ++ toString s.clock, success := false
              error_message := some "Optimizer disabled: application" })

/-- Storing an `ActiveRecord` after a successful apply
(actions.py 838-843). -/
def record_active (s : ExecState) (action : OptimizationAction)
    (result : ActionResult) : ExecState :=
  { s with
    active_actions := setKey s.active_actions result.action_id ⟨action, result, s.clock⟩
    clock := s.clock + 1 }

/-- The `except` arm of the `apply_actions` loop (actions.py 848-854):
an exception becomes a failed result carrying the error text. -/
def error_result (clock : ℕ) (e : String) : ActionResult :=
  { action_id := "error_" ++ toString clock, success := false, error_message := some e }

/-- One iteration of the `apply_actions` loop body (actions.py 833-854),
parameterized by the single-action application so that a raising backend
(`Except.error`) is covered. -/
def single_step
    (applyOne : ExecState → OptimizationAction → Except String (ExecState × ActionResult))
    (s : ExecState) (action : OptimizationAction) : ExecState × ActionResult :=
  match applyOne s action with
  | Except.ok q => (if q.2.success then record_active q.1 action q.2 else q.1, q.2)
  | Except.error e => ({ s with clock := s.clock + 1 }, error_result s.clock e)

/-- The `for action in actions` loop of `apply_actions`
(actions.py 830-854): one result per action, in order, continuing past
failures and exceptions. -/
def apply_actions_loop
    (applyOne : ExecState → OptimizationAction → Except String (ExecState × ActionResult)) :
    ExecState → List OptimizationAction → ExecState × List ActionResult
  | s, [] => (s, [])
  | s, action :: rest =>
      let p := single_step applyOne s action
      let q := apply_actions_loop applyOne p.1 rest
      (q.1, p.2 :: q.2)

/-- The history append with the bound of actions.py 856-861:
`extend(results)` then truncate to the most recent 500 entries whenever
the length exceeds 1000 (`self.action_history[-500:]`). -/
def hist_append (history results : List ActionResult) : List ActionResult :=
  let h2 := history ++ results
  if h2.length > 1000 then h2.drop (h2.length - 500) else h2

/-- `apply_actions` body over an arbitrary single-action function: run
the loop, then append all results to the bounded history. -/
def apply_actions_with
    (applyOne : ExecState → OptimizationAction → Except String (ExecState × ActionResult))
    (s : ExecState) (actions : List OptimizationAction) : ExecState × List ActionResult :=
  let p := apply_actions_loop applyOne s actions
  ({ p.1 with action_history := hist_append p.1.action_history p.2 }, p.2)

/-- `OptimizationActuator.apply_actions` (actions.py 828-863). -/
def apply_actions (env : Env) (s : ExecState) (actions : List OptimizationAction) :
    ExecState × List ActionResult :=
  apply_actions_with (apply_single_action env) s actions

/-- `OptimizationActuator.revert_action` (actions.py 902-942): look up
the active record, re-route by the original action's kind, call the
backend's revert, and delete the active record iff the backend reported
success. An id that is not active yields a failed result. -/
def revert_action (env : Env) (s : ExecState) (action_id : String) :
    ExecState × ActionResult :=
  match lookupKey s.active_actions action_id with
  | none =>
      (s, { action_id := action_id, success := false
            error_message := some "Action not found in active actions" })
  | some info =>
      match optimizer_route info.action.action_type with
      | none =>
          (s, { action_id := action_id, success := false
                error_message := some "Optimizer not found: None" })
      | some name =>
          let p : ExecState × ActionResult :=
            if name = "display" then
              let q := display_revert_optimization env.displayOk s.display action_id
              ({ s with display := q.1 }, q.2)
            else if name = "cpu" then
              let q := cpu_revert_optimization env.cpuOk s.cpu action_id
              ({ s with cpu := q.1 }, q.2)
            else if name = "network" then
              let q := network_revert_optimization env.networkOk s.network action_id
              ({ s with network := q.1 }, q.2)
            else
              let q := app_revert_optimization env.appOk s.application action_id
              ({ s with application := q.1 }, q.2)
          if p.2.success then
            ({ p.1 with active_actions := delKey p.1.active_actions action_id }, p.2)
          else p

/-! ## Controller emergency watchdog (`agent_controller.py`) -/

/-- The fixed emergency bundle of `_apply_emergency_optimizations`
(agent_controller.py 350-368). -/
def emergency_actions : List OptimizationAction :=
  [⟨"brightness_adjust", 0.9, "display", 25, 0.3, 0.95⟩,
   ⟨"cpu_throttle", 0.8, "system", 30, 0.7, 0.9⟩]

/-- The emergency-mode check of `_on_metrics_update`
(agent_controller.py 219-228) together with
`_apply_emergency_optimizations` (346-374): entering emergency mode
hands `emergency_actions` directly to `apply_actions` on the actuator —
`_filter_actions_by_mode` is never consulted — while leaving emergency
mode changes only the flag. Returns the new flag and executor state. -/
def on_metrics_update_emergency (env : Env) (battery_percent min_battery_threshold : ℚ)
    (emergency_mode : Bool) (s : ExecState) : Bool × ExecState :=
  if battery_percent ≤ min_battery_threshold then
    if emergency_mode = false then
      (true, (apply_actions env s emergency_actions).1)
    else (emergency_mode, s)
  else
    if emergency_mode = true then (false, s)
    else (emergency_mode, s)

/-! ## Spec-side characterization of the merge, and concrete fixtures -/

/-- The per-entry outcome of the merge as the spec states it: for an
entry of the classifier map, a rule action with the same key and
strictly lower intensity replaces it, otherwise it is kept. -/
def merged_pair (rule_actions : List OptimizationAction)
    (p : String × OptimizationAction) : String × OptimizationAction :=
  match rule_actions.find? (fun b => keyOf b == p.1) with
  | some b => if b.intensity < p.2.intensity then (p.1, b) else p
  | none => p

/-- The merge outcome for one classifier action as the spec states it:
kept, unless some rule action with the same key has strictly lower
intensity, in which case that rule action replaces it. -/
def merged_entry (rule_actions : List OptimizationAction)
    (a : OptimizationAction) : OptimizationAction :=
  match rule_actions.find? (fun b => keyOf b == keyOf a) with
  | some b => if b.intensity < a.intensity then b else a
  | none => a

/-- A metrics snapshot with the fields the scenarios mention; the
remaining fields are fixed at benign values. -/
def mkMetrics (battery power_draw cpu gpu memory brightness app_cpu : ℚ) : SystemMetrics :=
  { timestamp := 0, battery_percent := battery, battery_power_draw := power_draw
    cpu_percent := cpu, cpu_freq_current := 2400, memory_percent := memory
    gpu_percent := gpu, gpu_memory_percent := 0, network_bytes_sent := 0
    network_bytes_recv := 0, disk_io_read := 0, disk_io_write := 0
    screen_brightness := brightness, active_processes := 100
    target_app_cpu := app_cpu, target_app_memory := 0 }

/-- A placeholder result value (used as the `getD` default). -/
def dummy_result : ActionResult :=
  { action_id := "r", success := true }

/-- A placeholder action (used as the `getD` default). -/
def dummy_action : OptimizationAction := ⟨"", 0, "", 0, 0, 0⟩

/-- An environment where every platform primitive succeeds. -/
def test_env : Env :=
  ⟨true, true, true, true, false, false, dummy_result, true, 1, "eth0"⟩

/-- An environment where the display brightness primitive fails. -/
def test_env_fail : Env :=
  ⟨false, true, true, true, false, false, dummy_result, true, 1, "eth0"⟩

/-- A freshly initialized actuator state. -/
def init_state : ExecState :=
  ⟨⟨75, [], true⟩, ⟨"balanced", [], true⟩, ⟨[], [], true⟩, ⟨[], true⟩, [], [], 0⟩

/-- An actuator state whose history is already over the 1000 bound. -/
def big_state : ExecState :=
  { init_state with action_history := List.replicate 1001 dummy_result }

/-- An active record for an applied brightness action. -/
def rec1 : ActiveRecord :=
  ⟨⟨"brightness_adjust", 0.3, "display", 10, 0.1, 0.8⟩,
   ⟨"display_brightness_adjust_0", true, none, some (Val.int 80), some (Val.int 65), 10, 0⟩, 0⟩

/-- An actuator state holding one active brightness action whose
previous value is stored by the display backend. -/
def s_active : ExecState :=
  ⟨⟨65, [("display_brightness_adjust_0", 80)], true⟩, ⟨"balanced", [], true⟩,
   ⟨[], [], true⟩, ⟨[], true⟩, [("display_brightness_adjust_0", rec1)], [], 1⟩

/-- A single-action application that always raises. -/
def raise_all : ExecState → OptimizationAction → Except String (ExecState × ActionResult) :=
  fun _ _ => Except.error "boom"

/-- The spec's merge tie-break example: classifier proposes
(brightness_adjust, display) at intensity 0.5. -/
def classifier_brightness : OptimizationAction :=
  ⟨"brightness_adjust", 0.5, "display", 5, 0.1, 0.9⟩

/-- The spec's merge tie-break example: the rule tier proposes the same
key at intensity 0.3. -/
def rule_brightness : OptimizationAction :=
  ⟨"brightness_adjust", 0.3, "display", 5, 0.1, 0.8⟩

/-! ## Association-list lemmas -/

theorem lookupKey_delKey {α : Type} (l : List (String × α)) (k : String) :
    lookupKey (delKey l k) k = none := by
  induction l with
  | nil => rfl
  | cons p rest ih =>
      by_cases h : p.1 = k
      · simpa [delKey, h] using ih
      · simpa [delKey, h, lookupKey] using ih

theorem delKey_active_ne {α : Type} (l : List (String × α)) (k k2 : String)
    (h : k2 ≠ k) : lookupKey (delKey l k) k2 = lookupKey l k2 := by
  induction l with
  | nil => rfl
  | cons p rest ih =>
      by_cases hp : p.1 = k
      · have hpk2 : p.1 ≠ k2 := by rw [hp]; exact fun hk => h hk.symm
        rw [show delKey (p :: rest) k = delKey rest k from by simp [delKey, hp]]
        rw [ih]
        simp [lookupKey, hpk2]
      · rw [show delKey (p :: rest) k = p :: delKey rest k from by simp [delKey, hp]]
        by_cases hq : p.1 = k2 <;> simp [lookupKey, hq, ih]

theorem lookupKey_append {α : Type} (l1 l2 : List (String × α)) (k : String) :
    lookupKey (l1 ++ l2) k =
      match lookupKey l1 k with
      | some v => some v
      | none => lookupKey l2 k := by
  induction l1 with
  | nil => rfl
  | cons p rest ih =>
      by_cases h : p.1 = k <;> simp [lookupKey, h, ih]

theorem lookupKey_none_iff {α : Type} (l : List (String × α)) (k : String) :
    lookupKey l k = none ↔ ∀ p ∈ l, p.1 ≠ k := by
  induction l with
  | nil => simp [lookupKey]
  | cons p rest ih =>
      by_cases h : p.1 = k <;> simp [lookupKey, h, ih]

theorem setKey_of_lookup_none {α : Type} (l : List (String × α)) (k : String) (v : α)
    (h : lookupKey l k = none) : setKey l k v = l ++ [(k, v)] := by
  induction l with
  | nil => rfl
  | cons p rest ih =>
      by_cases hp : p.1 = k
      · simp [lookupKey, hp] at h
      · simp only [lookupKey, if_neg hp] at h
        simp [setKey, hp, ih h]

theorem keys_setKey_of_lookup_some {α : Type} (l : List (String × α)) (k : String)
    (v a : α) (h : lookupKey l k = some a) :
    (setKey l k v).map Prod.fst = l.map Prod.fst := by
  induction l with
  | nil => simp [lookupKey] at h
  | cons p rest ih =>
      by_cases hp : p.1 = k
      · simp [setKey, hp]
      · simp only [lookupKey, if_neg hp] at h
        simp [setKey, hp, ih h]

theorem lookupKey_of_mem_nodup {α : Type} (l : List (String × α)) (p : String × α)
    (hn : (l.map Prod.fst).Nodup) (hm : p ∈ l) : lookupKey l p.1 = some p.2 := by
  induction l with
  | nil => simp at hm
  | cons q rest ih =>
      simp only [List.map_cons, List.nodup_cons] at hn
      rcases List.mem_cons.mp hm with h | h
      · subst h; simp [lookupKey]
      · have hne : q.1 ≠ p.1 := by
          intro hq
          exact hn.1 (hq ▸ (List.mem_map.mpr ⟨p, h, rfl⟩))
        simp [lookupKey, hne, ih hn.2 h]

theorem setKey_eq_map_of_nodup {α : Type} (l : List (String × α)) (k : String)
    (v a : α) (hn : (l.map Prod.fst).Nodup) (h : lookupKey l k = some a) :
    setKey l k v = l.map (fun p => if p.1 = k then (k, v) else p) := by
  induction l with
  | nil => simp [lookupKey] at h
  | cons p rest ih =>
      simp only [List.map_cons, List.nodup_cons] at hn
      by_cases hp : p.1 = k
      · have hrest : lookupKey rest k = none := by
          rw [lookupKey_none_iff]
          intro q hq hqk
          exact hn.1 (List.mem_map.mpr ⟨q, hq, by rw [hqk, hp]⟩)
        have hmap : rest.map (fun p => if p.1 = k then (k, v) else p) = rest.map id := by
          apply List.map_congr_left
          intro q hq
          have : q.1 ≠ k := (lookupKey_none_iff rest k).mp hrest q hq
          simp [this]
        simp only [List.map_id] at hmap
        simp [setKey, hp, hmap]
      · simp only [lookupKey, if_neg hp] at h
        simp [setKey, hp, ih hn.2 h]

/-! ## Loop lemmas -/

theorem apply_actions_loop_history
    (applyOne : ExecState → OptimizationAction → Except String (ExecState × ActionResult))
    (hpres : ∀ st a q, applyOne st a = Except.ok q → q.1.action_history = st.action_history)
    (actions : List OptimizationAction) :
    ∀ s : ExecState,
      (apply_actions_loop applyOne s actions).1.action_history = s.action_history := by
  induction actions with
  | nil => intro s; rfl
  | cons a rest ih =>
      intro s
      show (apply_actions_loop applyOne (single_step applyOne s a).1 rest).1.action_history = _
      rw [ih]
      unfold single_step
      cases hd : applyOne s a with
      | ok q =>
          have := hpres s a q hd
          by_cases hs : q.2.success <;> simp [hs, record_active, this]
      | error e => simp

theorem apply_single_action_history (env : Env) (s : ExecState) (a : OptimizationAction)
    (q : ExecState × ActionResult) (h : apply_single_action env s a = Except.ok q) :
    q.1.action_history = s.action_history := by
  unfold apply_single_action at h
  repeat' split at h
  all_goals (cases h; rfl)

/-! ## Claim theorems -/

/-- Claim C3: the mode filter keeps exactly those input actions, in input
order, whose intensity is at most the mode's `max_intensity`, whose
confidence is at least the mode's `min_confidence`, and whose
performance impact is at most the global `max_performance_impact`; it is
a pure function of its inputs. -/
theorem filter_actions_by_mode_spec (actions : List OptimizationAction)
    (max_intensity min_confidence max_performance_impact : ℚ) :
    filter_actions_by_mode actions max_intensity min_confidence max_performance_impact =
      actions.filter (fun a =>
        decide (a.intensity ≤ max_intensity ∧ min_confidence ≤ a.confidence ∧
          a.performance_impact ≤ max_performance_impact)) := by
  induction actions with
  | nil => rfl
  | cons a rest ih =>
      simp only [filter_actions_by_mode, List.filter_cons, ih]
      by_cases h1 : a.intensity > max_intensity
      · simp [h1, not_le.mpr h1]
      · by_cases h2 : a.confidence < min_confidence
        · simp [h1, h2, not_le.mpr h2]
        · by_cases h3 : a.performance_impact > max_performance_impact
          · simp [h1, h2, h3, not_le.mpr h3]
          · simp [h1, h2, h3, not_lt.mp h1, not_lt.mp h2, not_lt.mp h3]

/-- Claim C6: context derivation is a pure function of the snapshot plus
the wall-clock hour, with battery tier thresholds at most 15 critical, at
most 30 low, at most 60 medium, else high, and performance demand from
cpu% + gpu%: over 80 heavy, over 50 moderate, over 20 light, else idle. -/
theorem analyze_context_thresholds (m : SystemMetrics) (current_hour : ℕ) :
    (m.battery_percent ≤ 15 → (analyze_context m current_hour).battery_level = "critical") ∧
    (15 < m.battery_percent → m.battery_percent ≤ 30 →
      (analyze_context m current_hour).battery_level = "low") ∧
    (30 < m.battery_percent → m.battery_percent ≤ 60 →
      (analyze_context m current_hour).battery_level = "medium") ∧
    (60 < m.battery_percent → (analyze_context m current_hour).battery_level = "high") ∧
    (80 < m.cpu_percent + m.gpu_percent →
      (analyze_context m current_hour).performance_demand = "heavy") ∧
    (50 < m.cpu_percent + m.gpu_percent → m.cpu_percent + m.gpu_percent ≤ 80 →
      (analyze_context m current_hour).performance_demand = "moderate") ∧
    (20 < m.cpu_percent + m.gpu_percent → m.cpu_percent + m.gpu_percent ≤ 50 →
      (analyze_context m current_hour).performance_demand = "light") ∧
    (m.cpu_percent + m.gpu_percent ≤ 20 →
      (analyze_context m current_hour).performance_demand = "idle") := by
  refine ⟨?_, ?_, ?_, ?_, ?_, ?_, ?_, ?_⟩
  · intro h1; simp [analyze_context, h1]
  · intro h1 h2; simp [analyze_context, not_le.mpr h1, h2]
  · intro h1 h2
    have n1 : ¬ m.battery_percent ≤ 15 := by linarith
    have n2 : ¬ m.battery_percent ≤ 30 := by linarith
    simp [analyze_context, n1, n2, h2]
  · intro h1
    have n1 : ¬ m.battery_percent ≤ 15 := by linarith
    have n2 : ¬ m.battery_percent ≤ 30 := by linarith
    have n3 : ¬ m.battery_percent ≤ 60 := by linarith
    simp [analyze_context, n1, n2, n3]
  · intro h1; simp [analyze_context, h1]
  · intro h1 h2
    have n1 : ¬ 80 < m.cpu_percent + m.gpu_percent := not_lt.mpr h2
    simp [analyze_context, n1, h1]
  · intro h1 h2
    have n1 : ¬ 80 < m.cpu_percent + m.gpu_percent := by linarith
    have n2 : ¬ 50 < m.cpu_percent + m.gpu_percent := not_lt.mpr h2
    simp [analyze_context, n1, n2, h1]
  · intro h1
    have n1 : ¬ 80 < m.cpu_percent + m.gpu_percent := by linarith
    have n2 : ¬ 50 < m.cpu_percent + m.gpu_percent := by linarith
    have n3 : ¬ 20 < m.cpu_percent + m.gpu_percent := not_lt.mpr h1
    simp [analyze_context, n1, n2, n3]

/-- Witness for C6 at the spec's example snapshots: battery 8 gives tier
critical, battery 45 gives tier medium, cpu+gpu = 85 gives demand heavy. -/
theorem analyze_context_thresholds_witness :
    ((mkMetrics 8 10 80 0 50 95 0).battery_percent ≤ 15 ∧
      (analyze_context (mkMetrics 8 10 80 0 50 95 0) 12).battery_level = "critical") ∧
    (30 < (mkMetrics 45 10 80 5 50 95 0).battery_percent ∧
      (mkMetrics 45 10 80 5 50 95 0).battery_percent ≤ 60 ∧
      (analyze_context (mkMetrics 45 10 80 5 50 95 0) 12).battery_level = "medium") ∧
    (80 < (mkMetrics 45 10 80 5 50 95 0).cpu_percent + (mkMetrics 45 10 80 5 50 95 0).gpu_percent ∧
      (analyze_context (mkMetrics 45 10 80 5 50 95 0) 12).performance_demand = "heavy") := by
  refine ⟨⟨by norm_num [mkMetrics], ?_⟩,
    ⟨by norm_num [mkMetrics], by norm_num [mkMetrics], ?_⟩,
    ⟨by norm_num [mkMetrics], ?_⟩⟩
  · exact (analyze_context_thresholds (mkMetrics 8 10 80 0 50 95 0) 12).1
      (by norm_num [mkMetrics])
  · exact (analyze_context_thresholds (mkMetrics 45 10 80 5 50 95 0) 12).2.2.1
      (by norm_num [mkMetrics]) (by norm_num [mkMetrics])
  · exact (analyze_context_thresholds (mkMetrics 45 10 80 5 50 95 0) 12).2.2.2.2.1
      (by norm_num [mkMetrics])

/-- Claim C7: applying `brightness_adjust` with intensity 0.3 at current
brightness 80 computes reduction `int(0.3 * 50) = 15` and sets
`max(10, 80 - 15) = 65`, which is at least 10 and at most the previous
value minus the reduction; a subsequent successful revert of that action
id restores brightness to exactly 80. -/
theorem display_round_trip :
    let action : OptimizationAction := ⟨"brightness_adjust", 0.3, "display", 10, 0.1, 0.8⟩
    let applied := display_apply_optimization true 0 ⟨80, [], true⟩ action
    let reverted := display_revert_optimization true applied.1 applied.2.action_id
    pyInt ((0.3 : ℚ) * 50) = 15 ∧
    applied.2.success = true ∧
    applied.1.current_brightness = 65 ∧
    applied.2.new_value = some (Val.int 65) ∧
    (10 : ℤ) ≤ 65 ∧ (65 : ℤ) ≤ 80 - pyInt ((0.3 : ℚ) * 50) ∧
    reverted.2.success = true ∧
    reverted.1.current_brightness = 80 := by
  norm_num +decide [display_apply_optimization, display_revert_optimization,
    set_brightness, pyInt, setKey, lookupKey, delKey]

/-- Claim C8: on a snapshot with battery 8, cpu 80 and brightness 95,
the two-tier decision returns at least two actions, among them a
brightness action and a CPU action each of intensity at least 0.7 —
both when the power-draw estimate reads unplugged (classifier class 3)
and when it reads plugged (classifier class 0, rules only). -/
theorem decide_critical_scenario :
    let on_battery : List OptimizationAction :=
      decide_optimization_modelled (mkMetrics 8 10 80 0 50 95 0) 12 (9/10)
    let plugged : List OptimizationAction :=
      decide_optimization_modelled (mkMetrics 8 2 80 0 50 95 0) 12 (9/10)
    (2 ≤ on_battery.length ∧
      (∃ a ∈ on_battery, a.action_type = "brightness_adjust" ∧ (0.7 : ℚ) ≤ a.intensity) ∧
      (∃ a ∈ on_battery, a.action_type = "cpu_throttle" ∧ (0.7 : ℚ) ≤ a.intensity)) ∧
    (2 ≤ plugged.length ∧
      (∃ a ∈ plugged, a.action_type = "brightness_adjust" ∧ (0.7 : ℚ) ≤ a.intensity) ∧
      (∃ a ∈ plugged, a.action_type = "cpu_throttle" ∧ (0.7 : ℚ) ≤ a.intensity)) := by
  norm_num +decide [decide_optimization_modelled, ml_decision_modelled, analyze_context,
    mkMetrics, synthetic_decision_logic, prediction_to_actions, get_rule_based_actions,
    critical_battery_rules, combine_actions, insert_rule_action, keyOf, setKey, lookupKey]

/-- Claim C4: on a metrics tick, battery at most the emergency threshold
with the flag down raises the flag and applies the fixed bundle (a
brightness action of intensity 0.9 and a CPU-throttle action of
intensity 0.8) directly to the executor, not through the mode filter;
battery above the threshold with the flag up clears the flag and applies
nothing (the executor state is untouched). -/
theorem emergency_watchdog_spec (env : Env) (battery_percent threshold : ℚ)
    (emergency_mode : Bool) (s : ExecState) :
    (battery_percent ≤ threshold → emergency_mode = false →
      (on_metrics_update_emergency env battery_percent threshold emergency_mode s).1 = true ∧
      (on_metrics_update_emergency env battery_percent threshold emergency_mode s).2 =
        (apply_actions env s emergency_actions).1 ∧
      emergency_actions.length = 2 ∧
      (∃ a ∈ emergency_actions, a.action_type = "brightness_adjust" ∧ a.intensity = 0.9) ∧
      (∃ a ∈ emergency_actions, a.action_type = "cpu_throttle" ∧ a.intensity = 0.8)) ∧
    (threshold < battery_percent → emergency_mode = true →
      (on_metrics_update_emergency env battery_percent threshold emergency_mode s).1 = false ∧
      (on_metrics_update_emergency env battery_percent threshold emergency_mode s).2 = s) := by
  constructor
  · intro h1 h2; subst h2
    refine ⟨?_, ?_, rfl, ?_, ?_⟩
    · simp [on_metrics_update_emergency, h1]
    · simp [on_metrics_update_emergency, h1]
    · norm_num +decide [emergency_actions]
    · norm_num +decide [emergency_actions]
  · intro h1 h2; subst h2
    have hn : ¬ battery_percent ≤ threshold := not_le.mpr h1
    constructor <;> simp [on_metrics_update_emergency, hn]

/-- Witness for C4: entering emergency mode at battery 3 with threshold
5, and leaving it at battery 10. -/
theorem emergency_watchdog_spec_witness :
    ((3 : ℚ) ≤ 5 ∧
      (on_metrics_update_emergency test_env 3 5 false init_state).1 = true ∧
      (on_metrics_update_emergency test_env 3 5 false init_state).2 =
        (apply_actions test_env init_state emergency_actions).1) ∧
    ((5 : ℚ) < 10 ∧
      (on_metrics_update_emergency test_env 10 5 true init_state).1 = false ∧
      (on_metrics_update_emergency test_env 10 5 true init_state).2 = init_state) := by
  constructor
  · have h := (emergency_watchdog_spec test_env 3 5 false init_state).1 (by norm_num) rfl
    exact ⟨by norm_num, h.1, h.2.1⟩
  · have h := (emergency_watchdog_spec test_env 10 5 true init_state).2 (by norm_num) rfl
    exact ⟨by norm_num, h.1, h.2⟩

/-- Claim C5: after every `apply_actions` call the result history is at
most 1000 long, and whenever appending a batch pushes it past 1000 it is
truncated to exactly the most recent 500 entries, keeping their order. -/
theorem apply_actions_history_bound (env : Env) (s : ExecState)
    (actions : List OptimizationAction) :
    (apply_actions env s actions).1.action_history.length ≤ 1000 ∧
    (1000 < (s.action_history ++ (apply_actions env s actions).2).length →
      (apply_actions env s actions).1.action_history =
        (s.action_history ++ (apply_actions env s actions).2).drop
          ((s.action_history ++ (apply_actions env s actions).2).length - 500) ∧
      (apply_actions env s actions).1.action_history.length = 500) := by
  have hh : (apply_actions env s actions).1.action_history =
      hist_append s.action_history (apply_actions env s actions).2 := by
    show (apply_actions_with (apply_single_action env) s actions).1.action_history = _
    unfold apply_actions_with
    simp only []
    rw [apply_actions_loop_history (apply_single_action env)
      (fun st a q h => apply_single_action_history env st a q h) actions s]
    rfl
  constructor
  · rw [hh]
    unfold hist_append
    simp only []
    split
    · next hgt =>
        rw [List.length_drop]
        omega
    · next hle =>
        omega
  · intro hgt
    rw [hh]
    unfold hist_append
    simp only []
    split
    · next => exact ⟨rfl, by rw [List.length_drop]; omega⟩
    · next hle => exact absurd hgt hle

/-- Witness for C5: a history already holding 1001 results is truncated
to its most recent 500 entries by the next `apply_actions` call. -/
theorem apply_actions_history_bound_witness :
    1000 < (big_state.action_history ++ (apply_actions test_env big_state []).2).length ∧
    (apply_actions test_env big_state []).1.action_history =
      (big_state.action_history ++ (apply_actions test_env big_state []).2).drop
        ((big_state.action_history ++ (apply_actions test_env big_state []).2).length - 500) ∧
    (apply_actions test_env big_state []).1.action_history.length = 500 := by
  have hlen : 1000 <
      (big_state.action_history ++ (apply_actions test_env big_state []).2).length := by
    have h0 : (apply_actions test_env big_state []).2 = [] := rfl
    rw [h0, List.append_nil]
    show 1000 < (List.replicate 1001 dummy_result).length
    rw [List.length_replicate]
    omega
  exact ⟨hlen, (apply_actions_history_bound test_env big_state []).2 hlen⟩

/-- Claim C10: the `apply_actions` loop returns exactly one result per
input action, in input order; position i holds the outcome of applying
action i in the state reached after the first i actions; a raising
backend contributes a failed result carrying the error message in that
position; and, provided single applications do not touch the history,
every result of the batch is appended to the (bounded) history. -/
theorem apply_actions_loop_spec
    (applyOne : ExecState → OptimizationAction → Except String (ExecState × ActionResult))
    (s : ExecState) (actions : List OptimizationAction) :
    (apply_actions_loop applyOne s actions).2.length = actions.length ∧
    (∀ i, i < actions.length →
      (apply_actions_loop applyOne s actions).2.getD i dummy_result =
        (single_step applyOne (apply_actions_loop applyOne s (actions.take i)).1
          (actions.getD i dummy_action)).2) ∧
    (∀ st a e, applyOne st a = Except.error e →
      (single_step applyOne st a).2.success = false ∧
      (single_step applyOne st a).2.error_message = some e) ∧
    ((∀ st a q, applyOne st a = Except.ok q → q.1.action_history = st.action_history) →
      (apply_actions_with applyOne s actions).1.action_history =
        hist_append s.action_history (apply_actions_loop applyOne s actions).2) := by
  refine ⟨?_, ?_, ?_, ?_⟩
  · induction actions generalizing s with
    | nil => rfl
    | cons a rest ih =>
        show (apply_actions_loop applyOne (single_step applyOne s a).1 rest).2.length + 1 =
          rest.length + 1
        rw [ih (single_step applyOne s a).1]
  · induction actions generalizing s with
    | nil => intro i hi; simp at hi
    | cons a rest ih =>
        intro i hi
        match i with
        | 0 => rfl
        | Nat.succ j =>
            have hj : j < rest.length := by simpa using hi
            show (apply_actions_loop applyOne (single_step applyOne s a).1 rest).2.getD j
                dummy_result = _
            rw [ih (single_step applyOne s a).1 j hj]
            rfl
  · intro st a e h
    simp [single_step, h, error_result]
  · intro hpres
    show (apply_actions_with applyOne s actions).1.action_history = _
    unfold apply_actions_with
    simp only []
    rw [apply_actions_loop_history applyOne hpres actions s]

/-- Witness for C10: a batch of one action against an always-raising
backend yields one failed result carrying the error message, and the
result is appended to the history. -/
theorem apply_actions_loop_spec_witness :
    (0 < [dummy_action].length ∧
      (apply_actions_loop raise_all init_state [dummy_action]).2.getD 0 dummy_result =
        (single_step raise_all
          (apply_actions_loop raise_all init_state ([dummy_action].take 0)).1
          ([dummy_action].getD 0 dummy_action)).2) ∧
    (raise_all init_state dummy_action = Except.error "boom" ∧
      (single_step raise_all init_state dummy_action).2.success = false ∧
      (single_step raise_all init_state dummy_action).2.error_message = some "boom") ∧
    (apply_actions_with raise_all init_state [dummy_action]).1.action_history =
      hist_append init_state.action_history
        (apply_actions_loop raise_all init_state [dummy_action]).2 := by
  have h := apply_actions_loop_spec raise_all init_state [dummy_action]
  refine ⟨⟨by norm_num, h.2.1 0 (by norm_num)⟩, ?_, ?_⟩
  · have he := h.2.2.1 init_state dummy_action "boom" rfl
    exact ⟨rfl, he.1, he.2⟩
  · exact h.2.2.2 (fun st a q hq => by simp [raise_all] at hq)

/-- Claim C1: `revert_action` on an id absent from the active map
returns a failed not-found result without raising and leaves the state
unchanged; on an active id it routes by the original action's kind to
that backend's revert, returns the backend's result, and deletes the
active record exactly when the backend reports success. -/
theorem revert_action_spec (env : Env) (s : ExecState) (action_id : String) :
    (lookupKey s.active_actions action_id = none →
      (revert_action env s action_id).1 = s ∧
      (revert_action env s action_id).2.success = false ∧
      (revert_action env s action_id).2.error_message =
        some "Action not found in active actions") ∧
    (∀ info, lookupKey s.active_actions action_id = some info →
      ((revert_action env s action_id).2.success = true ↔
        lookupKey (revert_action env s action_id).1.active_actions action_id = none) ∧
      (info.action.action_type = "brightness_adjust" →
        (revert_action env s action_id).2 =
          (display_revert_optimization env.displayOk s.display action_id).2) ∧
      (info.action.action_type = "cpu_throttle" →
        (revert_action env s action_id).2 =
          (cpu_revert_optimization env.cpuOk s.cpu action_id).2) ∧
      (info.action.action_type = "network_limit" →
        (revert_action env s action_id).2 =
          (network_revert_optimization env.networkOk s.network action_id).2) ∧
      (info.action.action_type = "app_throttle" ∨
          info.action.action_type = "background_limit" →
        (revert_action env s action_id).2 =
          (app_revert_optimization env.appOk s.application action_id).2)) := by
  constructor
  · intro h
    refine ⟨?_, ?_, ?_⟩ <;> simp [revert_action, h]
  · intro info h
    by_cases t1 : info.action.action_type = "brightness_adjust"
    · have hroute : optimizer_route info.action.action_type = some "display" := by
        simp [optimizer_route, t1]
      refine ⟨?_, fun ht => ?_, fun ht => ?_, fun ht => ?_, fun ht => ?_⟩
      · cases hq : (display_revert_optimization env.displayOk s.display action_id).2.success <;>
          simp +decide [revert_action, h, hroute, hq, lookupKey_delKey]
      · cases hq : (display_revert_optimization env.displayOk s.display action_id).2.success <;>
          simp +decide [revert_action, h, hroute, hq]
      · rw [t1] at ht; exact absurd ht (by decide)
      · rw [t1] at ht; exact absurd ht (by decide)
      · rcases ht with ht | ht <;> (rw [t1] at ht; exact absurd ht (by decide))
    · by_cases t2 : info.action.action_type = "cpu_throttle"
      · have hroute : optimizer_route info.action.action_type = some "cpu" := by
          simp [optimizer_route, t1, t2]
        refine ⟨?_, fun ht => ?_, fun ht => ?_, fun ht => ?_, fun ht => ?_⟩
        · cases hq : (cpu_revert_optimization env.cpuOk s.cpu action_id).2.success <;>
            simp +decide [revert_action, h, hroute, hq, lookupKey_delKey]
        · rw [t2] at ht; exact absurd ht.symm (by decide)
        · cases hq : (cpu_revert_optimization env.cpuOk s.cpu action_id).2.success <;>
            simp +decide [revert_action, h, hroute, hq]
        · rw [t2] at ht; exact absurd ht (by decide)
        · rcases ht with ht | ht <;> (rw [t2] at ht; exact absurd ht (by decide))
      · by_cases t3 : info.action.action_type = "network_limit"
        · have hroute : optimizer_route info.action.action_type = some "network" := by
            simp [optimizer_route, t1, t2, t3]
          refine ⟨?_, fun ht => ?_, fun ht => ?_, fun ht => ?_, fun ht => ?_⟩
          · cases hq : (network_revert_optimization env.networkOk s.network action_id).2.success <;>
              simp +decide [revert_action, h, hroute, hq, lookupKey_delKey]
          · rw [t3] at ht; exact absurd ht.symm (by decide)
          · rw [t3] at ht; exact absurd ht.symm (by decide)
          · cases hq : (network_revert_optimization env.networkOk s.network action_id).2.success <;>
              simp +decide [revert_action, h, hroute, hq]
          · rcases ht with ht | ht <;> (rw [t3] at ht; exact absurd ht (by decide))
        · by_cases t4 : info.action.action_type = "app_throttle"
          · have hroute : optimizer_route info.action.action_type = some "application" := by
              simp [optimizer_route, t1, t2, t3, t4]
            refine ⟨?_, fun ht => ?_, fun ht => ?_, fun ht => ?_, fun ht => ?_⟩
            · cases hq : (app_revert_optimization env.appOk s.application action_id).2.success <;>
                simp +decide [revert_action, h, hroute, hq, lookupKey_delKey]
            · rw [t4] at ht; exact absurd ht.symm (by decide)
            · rw [t4] at ht; exact absurd ht.symm (by decide)
            · rw [t4] at ht; exact absurd ht.symm (by decide)
            · cases hq : (app_revert_optimization env.appOk s.application action_id).2.success <;>
                simp +decide [revert_action, h, hroute, hq]
          · by_cases t5 : info.action.action_type = "background_limit"
            · have hroute : optimizer_route info.action.action_type = some "application" := by
                simp [optimizer_route, t1, t2, t3, t4, t5]
              refine ⟨?_, fun ht => ?_, fun ht => ?_, fun ht => ?_, fun ht => ?_⟩
              · cases hq : (app_revert_optimization env.appOk s.application action_id).2.success <;>
                  simp +decide [revert_action, h, hroute, hq, lookupKey_delKey]
              · rw [t5] at ht; exact absurd ht.symm (by decide)
              · rw [t5] at ht; exact absurd ht.symm (by decide)
              · rw [t5] at ht; exact absurd ht.symm (by decide)
              · cases hq : (app_revert_optimization env.appOk s.application action_id).2.success <;>
                  simp +decide [revert_action, h, hroute, hq]
            · have hroute : optimizer_route info.action.action_type = none := by
                simp [optimizer_route, t1, t2, t3, t4, t5]
              refine ⟨?_, fun ht => absurd ht t1, fun ht => absurd ht t2,
                fun ht => absurd ht t3, fun ht => ?_⟩
              · simp [revert_action, h, hroute]
              · rcases ht with ht | ht
                · exact absurd ht t4
                · exact absurd ht t5

/-- Witness for C1: a successful revert of an active brightness action
removes it from the active map; a revert of an unknown id reports
not-found. -/
theorem revert_action_spec_witness :
    (lookupKey s_active.active_actions "display_brightness_adjust_0" = some rec1 ∧
      ((revert_action test_env s_active "display_brightness_adjust_0").2.success = true ↔
        lookupKey (revert_action test_env s_active "display_brightness_adjust_0").1.active_actions
          "display_brightness_adjust_0" = none) ∧
      (revert_action test_env s_active "display_brightness_adjust_0").2 =
        (display_revert_optimization test_env.displayOk s_active.display
          "display_brightness_adjust_0").2) ∧
    (lookupKey s_active.active_actions "missing" = none ∧
      (revert_action test_env s_active "missing").2.success = false ∧
      (revert_action test_env s_active "missing").2.error_message =
        some "Action not found in active actions") := by
  have hlook : lookupKey s_active.active_actions "display_brightness_adjust_0" = some rec1 := rfl
  have hmiss : lookupKey s_active.active_actions "missing" = none := rfl
  have h := (revert_action_spec test_env s_active "display_brightness_adjust_0").2 rec1 hlook
  have h2 := (revert_action_spec test_env s_active "missing").1 hmiss
  exact ⟨⟨hlook, h.1, h.2.1 rfl⟩, ⟨hmiss, h2.2.1, h2.2.2⟩⟩

/-- Claim C9 (implicit): the display backend deletes its stored
previous-state entry during revert even when restoring the brightness
fails, so after a failed brightness revert the id is still in the
executor's active map while the backend's entry is gone, and every later
revert of the same id fails with the action-not-found-in-history error. -/
theorem display_failed_revert_sticks (env env2 : Env) (s : ExecState) (action_id : String)
    (info : ActiveRecord) (v : ℤ)
    (h1 : lookupKey s.active_actions action_id = some info)
    (h2 : info.action.action_type = "brightness_adjust")
    (h3 : lookupKey s.display.previous_states action_id = some v)
    (h4 : env.displayOk = false) :
    (revert_action env s action_id).2.success = false ∧
    lookupKey (revert_action env s action_id).1.active_actions action_id = some info ∧
    lookupKey (revert_action env s action_id).1.display.previous_states action_id = none ∧
    (revert_action env2 (revert_action env s action_id).1 action_id).2.success = false ∧
    (revert_action env2 (revert_action env s action_id).1 action_id).2.error_message =
      some "Action not found in history" := by
  have hroute : optimizer_route info.action.action_type = some "display" := by
    simp [optimizer_route, h2]
  have hq : display_revert_optimization env.displayOk s.display action_id =
      ({ s.display with previous_states := delKey s.display.previous_states action_id },
       { action_id := action_id, success := false,
         new_value := some (Val.int s.display.current_brightness),
         error_message := some "Failed to revert brightness" }) := by
    simp [display_revert_optimization, h3, h4, set_brightness]
  have hstep : revert_action env s action_id =
      ({ s with display :=
          { s.display with previous_states := delKey s.display.previous_states action_id } },
       { action_id := action_id, success := false,
         new_value := some (Val.int s.display.current_brightness),
         error_message := some "Failed to revert brightness" }) := by
    simp +decide [revert_action, h1, hroute, hq]
  have hsecond : (revert_action env2 (revert_action env s action_id).1 action_id).2 =
      { action_id := action_id, success := false,
        error_message := some "Action not found in history" } := by
    rw [hstep]
    have hq2 : display_revert_optimization env2.displayOk
        { s.display with previous_states := delKey s.display.previous_states action_id }
        action_id =
        ({ s.display with previous_states := delKey s.display.previous_states action_id },
         { action_id := action_id, success := false,
           error_message := some "Action not found in history" }) := by
      simp [display_revert_optimization, lookupKey_delKey]
    simp +decide [revert_action, h1, hroute, hq2]
  refine ⟨?_, ?_, ?_, ?_, ?_⟩
  · rw [hstep]
  · rw [hstep]; exact h1
  · rw [hstep]; exact lookupKey_delKey _ _
  · rw [hsecond]
  · rw [hsecond]

/-! ## Merge lemmas (claim C2) -/

theorem lookupKey_setKey_ne {α : Type} (l : List (String × α)) (k k2 : String) (v : α)
    (h : k2 ≠ k) : lookupKey (setKey l k v) k2 = lookupKey l k2 := by
  have hk : ¬ (k = k2) := fun he => h he.symm
  induction l with
  | nil => simp [setKey, lookupKey, hk]
  | cons p rest ih =>
      by_cases hp : p.1 = k
      · simp [setKey, hp, lookupKey, hk]
      · by_cases hq : p.1 = k2 <;> simp [setKey, hp, lookupKey, hq, ih, h, hk]

theorem hasKey_map_pair (ml : List OptimizationAction) (k : String) :
    hasKey (ml.map (fun a => (keyOf a, a))) k = ml.any (fun a => keyOf a == k) := by
  induction ml with
  | nil => rfl
  | cons a rest ih =>
      by_cases hp : keyOf a = k
      · simp [hasKey, lookupKey, hp]
      · simp only [List.map_cons, List.any_cons]
        rw [show hasKey ((keyOf a, a) :: rest.map (fun a => (keyOf a, a))) k =
          hasKey (rest.map (fun a => (keyOf a, a))) k from by simp [hasKey, lookupKey, hp]]
        simp [ih, hp]

theorem foldl_setKey_build (ml : List OptimizationAction) :
    ∀ l : List (String × OptimizationAction),
      (∀ a ∈ ml, lookupKey l (keyOf a) = none) → (ml.map keyOf).Nodup →
      ml.foldl (fun l a => setKey l (keyOf a) a) l = l ++ ml.map (fun a => (keyOf a, a)) := by
  induction ml with
  | nil => intro l _ _; simp
  | cons a rest ih =>
      intro l hnone hnd
      simp only [List.map_cons, List.nodup_cons] at hnd
      have hins : setKey l (keyOf a) a = l ++ [(keyOf a, a)] :=
        setKey_of_lookup_none l (keyOf a) a (hnone a (List.mem_cons_self a rest))
      have hnone2 : ∀ c ∈ rest, lookupKey (l ++ [(keyOf a, a)]) (keyOf c) = none := by
        intro c hc
        rw [lookupKey_append]
        rw [hnone c (List.mem_cons_of_mem a hc)]
        have hne : keyOf a ≠ keyOf c := by
          intro he
          exact hnd.1 (he ▸ List.mem_map.mpr ⟨c, hc, rfl⟩)
        simp [lookupKey, hne]
      have := ih (l ++ [(keyOf a, a)]) hnone2 hnd.2
      calc (a :: rest).foldl (fun l a => setKey l (keyOf a) a) l
          = rest.foldl (fun l a => setKey l (keyOf a) a) (setKey l (keyOf a) a) := rfl
        _ = rest.foldl (fun l a => setKey l (keyOf a) a) (l ++ [(keyOf a, a)]) := by rw [hins]
        _ = (l ++ [(keyOf a, a)]) ++ rest.map (fun a => (keyOf a, a)) := this
        _ = l ++ (a :: rest).map (fun a => (keyOf a, a)) := by simp

theorem find_key_none (bs : List OptimizationAction) (k : String)
    (h : k ∉ bs.map keyOf) : bs.find? (fun c => keyOf c == k) = none := by
  rw [List.find?_eq_none]
  intro c hc
  simp only [beq_iff_eq]
  intro he
  exact h (he ▸ List.mem_map.mpr ⟨c, hc, rfl⟩)

theorem merged_pair_fresh (bs : List OptimizationAction) (p : String × OptimizationAction)
    (h : p.1 ∉ bs.map keyOf) : merged_pair bs p = p := by
  unfold merged_pair
  rw [find_key_none bs p.1 h]

theorem merged_pair_cons_ne (b : OptimizationAction) (bs : List OptimizationAction)
    (p : String × OptimizationAction) (h : keyOf b ≠ p.1) :
    merged_pair (b :: bs) p = merged_pair bs p := by
  unfold merged_pair
  rw [List.find?_cons_of_neg]
  simp [h]

theorem merged_pair_cons_matched (b : OptimizationAction) (bs : List OptimizationAction)
    (p : String × OptimizationAction) (hk : keyOf b = p.1) :
    merged_pair (b :: bs) p = if b.intensity < p.2.intensity then (p.1, b) else p := by
  unfold merged_pair
  rw [List.find?_cons_of_pos]
  simp [hk]

theorem foldl_insert_rule_spec (rule_actions : List OptimizationAction) :
    ∀ l : List (String × OptimizationAction),
      (l.map Prod.fst).Nodup → (rule_actions.map keyOf).Nodup →
      rule_actions.foldl insert_rule_action l =
        l.map (merged_pair rule_actions) ++
        (rule_actions.filter (fun b => !(hasKey l (keyOf b)))).map (fun b => (keyOf b, b)) := by
  induction rule_actions with
  | nil =>
      intro l _ _
      have hmp : l.map (merged_pair []) = l.map id := by
        apply List.map_congr_left
        intro p _
        rfl
      simp only [List.foldl_nil, List.filter_nil, List.map_nil, List.append_nil, hmp,
        List.map_id]
  | cons b bs ih =>
      intro l hnl hnr
      simp only [List.map_cons, List.nodup_cons] at hnr
      obtain ⟨hb, hbs⟩ := hnr
      show bs.foldl insert_rule_action (insert_rule_action l b) = _
      cases hl : lookupKey l (keyOf b) with
      | none =>
          have hins : insert_rule_action l b = l ++ [(keyOf b, b)] := by
            simp [insert_rule_action, hl]
          have hnotin : ∀ p ∈ l, p.1 ≠ keyOf b := (lookupKey_none_iff l (keyOf b)).mp hl
          have hnl2 : ((l ++ [(keyOf b, b)]).map Prod.fst).Nodup := by
            simp only [List.map_append, List.map_cons, List.map_nil]
            rw [List.nodup_append]
            refine ⟨hnl, List.nodup_singleton _, ?_⟩
            intro x hx hx2
            obtain ⟨p, hp, hpx⟩ := List.mem_map.mp hx
            simp only [List.mem_singleton] at hx2
            exact hnotin p hp (hpx.trans hx2)
          have ih2 := ih (l ++ [(keyOf b, b)]) hnl2 hbs
          rw [hins, ih2]
          have hmap1 : l.map (merged_pair bs) = l.map (merged_pair (b :: bs)) := by
            apply List.map_congr_left
            intro p hp
            exact (merged_pair_cons_ne b bs p (fun he => hnotin p hp he.symm)).symm
          have hmb : merged_pair bs (keyOf b, b) = (keyOf b, b) :=
            merged_pair_fresh bs (keyOf b, b) hb
          have hfilt : bs.filter (fun c => !(hasKey (l ++ [(keyOf b, b)]) (keyOf c))) =
              bs.filter (fun c => !(hasKey l (keyOf c))) := by
            apply List.filter_congr
            intro c hc
            have hne : keyOf b ≠ keyOf c := fun he => hb (he ▸ List.mem_map.mpr ⟨c, hc, rfl⟩)
            simp only [hasKey]
            rw [lookupKey_append]
            cases lookupKey l (keyOf c) <;> simp [lookupKey, hne]
          have hb_not : hasKey l (keyOf b) = false := by simp [hasKey, hl]
          rw [List.map_append, hfilt, hmap1]
          simp only [List.map_cons, List.map_nil, hmb, List.filter_cons, hb_not,
            Bool.not_false, if_pos trivial]
          simp
      | some a =>
          have hpa_of : ∀ p ∈ l, p.1 = keyOf b → p.2 = a := by
            intro p hp hpk
            have hlp := lookupKey_of_mem_nodup l p hnl hp
            rw [hpk, hl] at hlp
            injection hlp with hlp
            exact hlp.symm
          by_cases hlt : b.intensity < a.intensity
          · have hins : insert_rule_action l b = setKey l (keyOf b) b := by
              simp [insert_rule_action, hl, hlt]
            have hkeys : (setKey l (keyOf b) b).map Prod.fst = l.map Prod.fst :=
              keys_setKey_of_lookup_some l (keyOf b) b a hl
            have hnl2 : ((setKey l (keyOf b) b).map Prod.fst).Nodup := by
              rw [hkeys]; exact hnl
            have ih2 := ih (setKey l (keyOf b) b) hnl2 hbs
            rw [hins, ih2]
            have hset : setKey l (keyOf b) b =
                l.map (fun p => if p.1 = keyOf b then (keyOf b, b) else p) :=
              setKey_eq_map_of_nodup l (keyOf b) b a hnl hl
            have hfilt : bs.filter (fun c => !(hasKey (setKey l (keyOf b) b) (keyOf c))) =
                bs.filter (fun c => !(hasKey l (keyOf c))) := by
              apply List.filter_congr
              intro c hc
              have hne : keyOf c ≠ keyOf b := fun he => hb (he ▸ List.mem_map.mpr ⟨c, hc, rfl⟩)
              simp [hasKey, lookupKey_setKey_ne l (keyOf b) (keyOf c) b hne]
            have hmap : (setKey l (keyOf b) b).map (merged_pair bs) =
                l.map (merged_pair (b :: bs)) := by
              rw [hset, List.map_map]
              apply List.map_congr_left
              intro p hp
              by_cases hpk : p.1 = keyOf b
              · have hpa : p.2 = a := hpa_of p hp hpk
                show merged_pair bs (if p.1 = keyOf b then (keyOf b, b) else p) =
                  merged_pair (b :: bs) p
                rw [if_pos hpk, merged_pair_fresh bs (keyOf b, b) hb,
                  merged_pair_cons_matched b bs p hpk.symm, hpa, if_pos hlt, hpk]
              · show merged_pair bs (if p.1 = keyOf b then (keyOf b, b) else p) =
                  merged_pair (b :: bs) p
                rw [if_neg hpk, merged_pair_cons_ne b bs p (fun he => hpk he.symm)]
            have hhk : hasKey l (keyOf b) = true := by simp [hasKey, hl]
            rw [hmap, hfilt]
            simp only [List.filter_cons, hhk, Bool.not_true, if_neg]
            simp
          · have hins : insert_rule_action l b = l := by
              simp [insert_rule_action, hl, hlt]
            have ih2 := ih l hnl hbs
            rw [hins, ih2]
            have hmap : l.map (merged_pair bs) = l.map (merged_pair (b :: bs)) := by
              apply List.map_congr_left
              intro p hp
              by_cases hpk : p.1 = keyOf b
              · have hpa : p.2 = a := hpa_of p hp hpk
                rw [merged_pair_cons_matched b bs p hpk.symm, hpa, if_neg hlt]
                have hfresh : p.1 ∉ bs.map keyOf := by rw [hpk]; exact hb
                exact merged_pair_fresh bs p hfresh
              · exact (merged_pair_cons_ne b bs p (fun he => hpk he.symm)).symm
            have hhk : hasKey l (keyOf b) = true := by simp [hasKey, hl]
            rw [hmap]
            simp only [List.filter_cons, hhk, Bool.not_true, if_neg]
            simp

theorem merged_pair_snd (bs : List OptimizationAction) (a : OptimizationAction) :
    (merged_pair bs (keyOf a, a)).2 = merged_entry bs a := by
  unfold merged_pair merged_entry
  simp only []
  cases hf : bs.find? (fun c => keyOf c == keyOf a) with
  | none => rfl
  | some b => by_cases hbi : b.intensity < a.intensity <;> simp [hbi]

/-- Claim C2: the merge keys each action by (kind, target domain) — the
key string `kind ++ "_" ++ domain` the source builds; with distinct keys
inside each tier, the result is exactly: each classifier action, kept
unless a rule action with the same key has strictly lower intensity (in
which case that rule action replaces it), followed by the rule actions
whose keys no classifier action claimed, as-is. -/
theorem combine_actions_spec (ml_actions rule_actions : List OptimizationAction)
    (h1 : (ml_actions.map keyOf).Nodup) (h2 : (rule_actions.map keyOf).Nodup) :
    combine_actions ml_actions rule_actions =
      ml_actions.map (merged_entry rule_actions) ++
      rule_actions.filter (fun b => !(ml_actions.any (fun a => keyOf a == keyOf b))) := by
  have hbuild : ml_actions.foldl (fun l a => setKey l (keyOf a) a) [] =
      ml_actions.map (fun a => (keyOf a, a)) := by
    have h := foldl_setKey_build ml_actions [] (fun a _ => rfl) h1
    simpa using h
  show ((rule_actions.foldl insert_rule_action
      (ml_actions.foldl (fun l a => setKey l (keyOf a) a) [])).map (fun p => p.2)) = _
  rw [hbuild]
  have hnkeys : ((ml_actions.map (fun a => (keyOf a, a))).map Prod.fst).Nodup := by
    rw [List.map_map]
    exact h1
  rw [foldl_insert_rule_spec rule_actions (ml_actions.map (fun a => (keyOf a, a))) hnkeys h2]
  rw [List.map_append, List.map_map, List.map_map]
  have hfilt : rule_actions.filter
      (fun b => !(hasKey (ml_actions.map (fun a => (keyOf a, a))) (keyOf b))) =
      rule_actions.filter (fun b => !(ml_actions.any (fun a => keyOf a == keyOf b))) := by
    apply List.filter_congr
    intro c _
    rw [hasKey_map_pair]
  rw [hfilt]
  congr 1
  · apply List.map_congr_left
    intro a _
    exact merged_pair_snd rule_actions a
  · rw [List.map_map]
    rw [show ((fun (p : String × OptimizationAction) => p.2) ∘
        fun (b : OptimizationAction) => (keyOf b, b)) = id from funext (fun b => rfl)]
    rw [List.map_id]

/-- Witness for C2: the spec's tie-break example — classifier
(brightness_adjust, display, 0.5) merged with rule (brightness_adjust,
display, 0.3) yields the single rule action of intensity 0.3. -/
theorem combine_actions_spec_witness :
    (([classifier_brightness].map keyOf).Nodup ∧ ([rule_brightness].map keyOf).Nodup) ∧
    combine_actions [classifier_brightness] [rule_brightness] =
      [classifier_brightness].map (merged_entry [rule_brightness]) ++
      [rule_brightness].filter
        (fun b => !([classifier_brightness].any (fun a => keyOf a == keyOf b))) ∧
    combine_actions [classifier_brightness] [rule_brightness] = [rule_brightness] ∧
    (combine_actions [classifier_brightness] [rule_brightness]).map
      (fun a => a.intensity) = [0.3] := by
  refine ⟨⟨List.nodup_singleton _, List.nodup_singleton _⟩, ?_, ?_, ?_⟩
  · exact combine_actions_spec [classifier_brightness] [rule_brightness]
      (List.nodup_singleton _) (List.nodup_singleton _)
  · norm_num +decide [combine_actions, insert_rule_action, classifier_brightness,
      rule_brightness, keyOf, setKey, lookupKey]
  · norm_num +decide [combine_actions, insert_rule_action, classifier_brightness,
      rule_brightness, keyOf, setKey, lookupKey]

/-- Witness for C9: with the brightness primitive failing, the revert of
the active brightness action fails, the id stays in the active map, the
display entry is gone, and the retry reports not-found-in-history. -/
theorem display_failed_revert_sticks_witness :
    (lookupKey s_active.active_actions "display_brightness_adjust_0" = some rec1 ∧
      rec1.action.action_type = "brightness_adjust" ∧
      lookupKey s_active.display.previous_states "display_brightness_adjust_0" = some 80 ∧
      test_env_fail.displayOk = false) ∧
    (revert_action test_env_fail s_active "display_brightness_adjust_0").2.success = false ∧
    lookupKey (revert_action test_env_fail s_active
      "display_brightness_adjust_0").1.active_actions "display_brightness_adjust_0" =
      some rec1 ∧
    lookupKey (revert_action test_env_fail s_active
      "display_brightness_adjust_0").1.display.previous_states
      "display_brightness_adjust_0" = none ∧
    (revert_action test_env (revert_action test_env_fail s_active
      "display_brightness_adjust_0").1 "display_brightness_adjust_0").2.error_message =
      some "Action not found in history" := by
  have h := display_failed_revert_sticks test_env_fail test_env s_active
    "display_brightness_adjust_0" rec1 80 rfl rfl rfl rfl
  exact ⟨⟨rfl, rfl, rfl, rfl⟩, h.1, h.2.1, h.2.2.1, h.2.2.2.2⟩
